import Mathlib

/-!
Verification of the quality-evaluation and eligibility-decision engine of the
GISAID_analysis pipeline (src/Gisaid_analysis.py).

The Python source is shallowly embedded as executable Lean definitions:

* Python strings are `List Char` (`Str` below); `str.lower`/`str.upper` are
  character-wise ASCII case maps, `pat in s` is the executable substring test
  `containsSub`, and `s.split(c)[0]` is `takeUntil c s`.
* JSON numbers (depth of coverage, coverage percentage, thresholds) are `ℚ`:
  the engine only compares them with `>=`, never does arithmetic, so exact
  rationals model the float comparisons faithfully.
* A JSON dictionary field that may be absent is an `Option`; `dict.get(k, d)`
  is `Option.getD`.  Region dictionaries are modelled with the fields the
  upstream tool always emits (`segment`, `depthOfCoverage`,
  `coveragePercentage`, `referenceSequenceId`) present, so `r.get(k, 0)`
  reduces to field access.
* A whole input file is `FileInput`: a zero-byte file, an undecodable file, or
  a decoded record.  `parse_json_file` returning `None` is `Option.none`.
* `evaluate_segment` returns one of the Python strings "Pass",
  "Fail (Depth: d, Cov: c%)" and "Not found"; these three shapes are the
  constructors of `Verdict` (with `fail` carrying the interpolated depth and
  coverage).  The caller's test `"Pass" in verdict` holds exactly for the
  first shape, since the other two consist of fixed words other than "Pass"
  and decimal numerals; it is modelled by `verdict_has_pass`.
-/

abbrev Str := List Char

/-- Character-wise lower-casing, modelling Python `str.lower()` on the ASCII
identifiers and taxonomy labels this pipeline handles. -/
def lowerStr (s : Str) : Str := s.map Char.toLower

/-- Character-wise upper-casing, modelling Python `str.upper()`. -/
def upperStr (s : Str) : Str := s.map Char.toUpper

/-- Executable substring test: `containsSub pat s` is Python `pat in s`. -/
def containsSub (pat : Str) : Str → Bool
  | [] => pat.isEmpty
  | a :: rest => pat.isPrefixOf (a :: rest) || containsSub pat rest

/-- Characters strictly before the first occurrence of `c`; the whole string
when `c` does not occur.  This is Python `s.split(c)[0]`. -/
def takeUntil (c : Char) : Str → Str
  | [] => []
  | a :: rest => if a == c then [] else a :: takeUntil c rest

/-- Decimal digits of a natural number, for Python f-string interpolation of
an `int` such as `f"segment 4"`. -/
def natStr (n : Nat) : Str := (toString n).toList

/-- Numeric value of a run of decimal digits, for Python `int(...)` applied to
a regex digit group. -/
def digitsToNat (ds : Str) : Nat :=
  ds.foldl (fun acc c => acc * 10 + (c.toNat - '0'.toNat)) 0

/-- Whitespace as matched by Python `\s` / stripped by `str.strip()`. -/
def isSpaceChar (c : Char) : Bool :=
  c == ' ' || c == '\t' || c == '\n' || c == '\r' || c == '\x0b' || c == '\x0c'

/-- Python `str.strip()`. -/
def stripStr (s : Str) : Str :=
  ((s.dropWhile isSpaceChar).reverse.dropWhile isSpaceChar).reverse

/-- The four reserved control-marker tests, exactly the Python condition
`"PC" in s or "NC" in s or "Neg" in s or "Pos" in s` that the source repeats
at its three call sites (normalize_limsid, parse_json_file line 288,
process_influenza_files line 435). -/
def isControlId (s : Str) : Bool :=
  containsSub "PC".toList s || containsSub "NC".toList s ||
  containsSub "Neg".toList s || containsSub "Pos".toList s

/-- The repeat-run marker test `"-R" in s or "-r" in s`. -/
def hasRepMarker (s : Str) : Bool :=
  containsSub "-R".toList s || containsSub "-r".toList s

/-- Embedding of `normalize_limsid` (Gisaid_analysis.py lines 77-94). -/
def normalize_limsid (raw_id : Str) : Str :=
  if isControlId raw_id then raw_id
  else if hasRepMarker raw_id then raw_id
  else if containsSub "_".toList raw_id then takeUntil '_' raw_id
  else takeUntil '-' raw_id

/-- One region dictionary of a strain, with the four fields the engine reads
(`segment`, `depthOfCoverage`, `coveragePercentage`, `referenceSequenceId`). -/
structure RawRegion where
  segment : Str
  depthOfCoverage : ℚ
  coveragePercentage : ℚ
  referenceSequenceId : Str
deriving Repr, DecidableEq

/-- One strain dictionary of an assignments record.  Fields read via
`strain.get(key)` with no default are `Option`s (absent key gives `none`);
`strain.get('regions', [])` is `regions.getD []`. -/
structure RawStrain where
  taxonomyName : Option Str
  coveragePercentage : Option ℚ
  depthOfCoverage : Option ℚ
  ntIdentity : Option ℚ
  subTypeConclusion : Option Str
  regions : Option (List RawRegion)
deriving Repr, DecidableEq

/-- The decoded JSON record: the strain list at
`data.attributes.strains`, absent path treated as the empty list. -/
structure RawRecord where
  strains : Option (List RawStrain)
deriving Repr, DecidableEq

/-- One input file of a batch as `parse_json_file` sees it: zero-byte
(`os.path.getsize == 0`), undecodable (`json.JSONDecodeError`), or a decoded
record.  The name is the basename of the `.assignments.json` file. -/
inductive FileInput where
  | emptyFile (name : Str)
  | malformed (name : Str)
  | valid (name : Str) (record : RawRecord)
deriving Repr, DecidableEq

/-- The three return shapes of `evaluate_segment`: the strings "Pass",
"Fail (Depth: d, Cov: c%)" (carrying the region's observed depth and
coverage) and "Not found". -/
inductive Verdict where
  | pass
  | fail (depth coverage : ℚ)
  | notFound
deriving Repr, DecidableEq

/-- The caller's test `"Pass" in verdict_string`
(process_influenza_files line 432).  Of the three strings `evaluate_segment`
can return, only "Pass" itself contains "Pass": the other two are made of the
fixed words "Fail", "Depth", "Cov", "Not found" and decimal numerals. -/
def verdict_has_pass : Verdict → Bool
  | .pass => true
  | _ => false

/-- Embedding of `evaluate_segment` (Gisaid_analysis.py lines 315-348): scan
the regions in order for the first whose lower-cased label starts with
`"segment {segment_num}"`; threshold-check that region, else "Not found".
The `virus_type` parameter is accepted and unused, as in the source. -/
def evaluate_segment (regions : List RawRegion) (segment_num : Nat)
    (virus_type : Str) (min_depth min_cov : ℚ) : Verdict :=
  match regions with
  | [] => .notFound
  | region :: rest =>
    let segment_name := lowerStr region.segment
    if (("segment ".toList ++ natStr segment_num)).isPrefixOf segment_name then
      let depth := region.depthOfCoverage
      let coverage := region.coveragePercentage
      if min_depth ≤ depth ∧ min_cov ≤ coverage then .pass
      else .fail depth coverage
    else evaluate_segment rest segment_num virus_type min_depth min_cov

/-- Tail of the regex match of `segment(?:\s*rna)?\s*(\d+)` once the literal
`segment` has been consumed: greedy `\s*` before `rna` must absorb all the
whitespace, and if the digits after an `rna` are missing the backtracked
empty-optional branch finds the letter `r` where `\d+` needs a digit, so both
branches reduce to the two cases below. -/
def segNumAfter (t : Str) : Option Nat :=
  let t1 := t.dropWhile isSpaceChar
  if "rna".toList.isPrefixOf t1 then
    let t2 := (t1.drop 3).dropWhile isSpaceChar
    match t2 with
    | d :: _ => if d.isDigit then some (digitsToNat (t2.takeWhile Char.isDigit)) else none
    | [] => none
  else
    match t1 with
    | d :: _ => if d.isDigit then some (digitsToNat (t1.takeWhile Char.isDigit)) else none
    | [] => none

/-- Leftmost-match search of `re.search(r'segment(?:\s*rna)?\s*(\d+)', s)`:
try every start position left to right; at a position the whole pattern
matches only if the literal `segment` is there and `segNumAfter` succeeds on
the remainder. -/
def searchSegNum : Str → Option Nat
  | [] => none
  | a :: rest =>
    if "segment".toList.isPrefixOf (a :: rest) then
      match segNumAfter ((a :: rest).drop 7) with
      | some n => some n
      | none => searchSegNum rest
    else searchSegNum rest

/-- Embedding of `sort_segment_key` (Gisaid_analysis.py lines 350-374):
strip and lower-case the label, regex-search for the segment number, and
fall back to 999. -/
def sort_segment_key (segment_name : Str) : Nat :=
  match searchSegNum (lowerStr (stripStr segment_name)) with
  | some n => n
  | none => 999

/-- VIRUS_CONFIG influenza type A taxonomy keywords. -/
def keywords_A : List Str := ["alphainfluenzavirus influenzae".toList]

/-- VIRUS_CONFIG influenza type B taxonomy keywords. -/
def keywords_B : List Str := ["betainfluenzavirus influenzae".toList]

/-- Python `any(kw in taxonomy for kw in keywords)`. -/
def kw_any (kws : List Str) (taxonomy : Str) : Bool :=
  kws.any (fun kw => containsSub kw taxonomy)

/-- VIRUS_CONFIG taxonomy keywords of the non-segmented viruses; keys other
than the two configured ones never reach this lookup in the source. -/
def virus_keywords (virus_key : Str) : List Str :=
  if virus_key == "hiv".toList then ["human immunodeficiency virus".toList]
  else if virus_key == "rsv".toList then ["orthopneumovirus hominis".toList]
  else []

/-- VIRUS_CONFIG influenza type A segment-to-gene map. -/
def segments_A : Nat → Option Str
  | 1 => some "PB2".toList
  | 2 => some "PB1".toList
  | 3 => some "PA".toList
  | 4 => some "HA".toList
  | 5 => some "NP".toList
  | 6 => some "NA".toList
  | 7 => some "MP".toList
  | 8 => some "NS".toList
  | _ => none

/-- VIRUS_CONFIG influenza type B segment-to-gene map (PB1 and PB2 swapped
relative to type A, as configured). -/
def segments_B : Nat → Option Str
  | 1 => some "PB1".toList
  | 2 => some "PB2".toList
  | 3 => some "PA".toList
  | 4 => some "HA".toList
  | 5 => some "NP".toList
  | 6 => some "NA".toList
  | 7 => some "MP".toList
  | 8 => some "NS".toList
  | _ => none

/-- Segment map lookup `VIRUS_CONFIG['influenza']['types'][t]['segments']`;
the pipeline only ever stamps `virusType` as "A" or "B". -/
def influenza_segments (t : Str) : Nat → Option Str :=
  if t == "A".toList then segments_A else segments_B

/-- The influenza strain-matching condition of `parse_json_file`
(lines 251-263), over the already lower-cased taxonomy. -/
def influenza_match (virus_type taxonomy : Str) : Bool :=
  (virus_type == "A".toList && kw_any keywords_A taxonomy) ||
  (virus_type == "B".toList && kw_any keywords_B taxonomy) ||
  (virus_type == "C".toList &&
    (kw_any keywords_A taxonomy || kw_any keywords_B taxonomy))

/-- The result dictionary appended for a matching segmented (influenza)
strain (parse_json_file lines 294-306). -/
structure InfluObs where
  limsID : Str
  coveragePercentage : Option ℚ
  depthOfCoverage : Option ℚ
  subTypeConclusion : Option Str
  virusType : Str
  regions : List RawRegion
deriving Repr, DecidableEq

/-- The result dictionary appended for a matching non-segmented strain
(parse_json_file lines 280-290). -/
structure NonSegRow where
  limsID : Str
  virusTypeField : Str
  coveragePercentage : Option ℚ
  depthOfCoverage : Option ℚ
  ntIdentity : Option ℚ
  subTypeConclusion : Option Str
  submitToGisaid : Str
  isControl : Str
  referenceSequenceId : Str
deriving Repr, DecidableEq

/-- Body of the `parse_json_file` strain loop for influenza: `none` models
`continue` on a non-matching strain.  The observation's `virusType` is
stamped from the `"alpha" in taxonomy` test (line 299), and the region
dictionaries are carried through (the line 300-305 projection copies exactly
the four modelled fields). -/
def process_influenza_strain (virus_type lims_id : Str) (strain : RawStrain) :
    Option InfluObs :=
  let taxonomy := lowerStr (strain.taxonomyName.getD [])
  if influenza_match virus_type taxonomy then
    some { limsID := lims_id
           coveragePercentage := strain.coveragePercentage
           depthOfCoverage := strain.depthOfCoverage
           subTypeConclusion := strain.subTypeConclusion
           virusType := if containsSub "alpha".toList taxonomy
                        then "A".toList else "B".toList
           regions := strain.regions.getD [] }
  else none

/-- Body of the `parse_json_file` strain loop for a non-segmented virus
(lines 264-291): `none` models `continue`, both on a taxonomy mismatch and
when the region list is empty (the `results.append` sits inside
`if regions:`).  The pass/fail input is the FIRST REGION's depth and
coverage (lines 274-278), while the stored report fields are the strain's
whole-genome numbers. -/
def process_nonseg_strain (virus_key lims_id : Str) (min_depth min_cov : ℚ)
    (strain : RawStrain) : Option NonSegRow :=
  let taxonomy := lowerStr (strain.taxonomyName.getD [])
  if kw_any (virus_keywords virus_key) taxonomy then
    match strain.regions.getD [] with
    | [] => none
    | region :: _ =>
      let depth := region.depthOfCoverage
      let coverage := region.coveragePercentage
      let passes : Bool := decide (min_depth ≤ depth) && decide (min_cov ≤ coverage)
      some { limsID := lims_id
             virusTypeField := upperStr virus_key
             coveragePercentage := strain.coveragePercentage
             depthOfCoverage := strain.depthOfCoverage
             ntIdentity := strain.ntIdentity
             subTypeConclusion := strain.subTypeConclusion
             submitToGisaid := if passes then "Yes".toList else "No".toList
             isControl := if isControlId lims_id then "Yes".toList else "No".toList
             referenceSequenceId := region.referenceSequenceId }
  else none

/-- LIMS id derived from the file name:
`normalize_limsid(os.path.basename(json_file).split('.')[0])` (line 240),
with `name` already the basename. -/
def lims_of_filename (name : Str) : Str := normalize_limsid (takeUntil '.' name)

/-- Embedding of `parse_json_file` for influenza (lines 225-313): an empty or
undecodable file gives `None`; otherwise the strain loop runs and `None`
is returned when no strain matched (`results if results else None`).  The
thresholds are accepted and unused on this branch, as in the source. -/
def parse_json_file_influenza (virus_type : Str) (min_depth min_cov : ℚ) :
    FileInput → Option (List InfluObs)
  | .emptyFile _ => none
  | .malformed _ => none
  | .valid name record =>
    let lims_id := lims_of_filename name
    let results := (record.strains.getD []).filterMap
      (process_influenza_strain virus_type lims_id)
    if results.isEmpty then none else some results

/-- Embedding of `parse_json_file` for a non-segmented virus key. -/
def parse_json_file_nonseg (virus_key : Str) (min_depth min_cov : ℚ) :
    FileInput → Option (List NonSegRow)
  | .emptyFile _ => none
  | .malformed _ => none
  | .valid name record =>
    let lims_id := lims_of_filename name
    let results := (record.strains.getD []).filterMap
      (process_nonseg_strain virus_key lims_id min_depth min_cov)
    if results.isEmpty then none else some results

/-- One row of the per-segment table built by `process_influenza_files`
(lines 420-427). -/
structure SegmentRow where
  limsID : Str
  virusType : Str
  segmentLabel : Str
  depthOfCoverage : ℚ
  coveragePercentage : ℚ
  referenceSequenceId : Str
deriving Repr, DecidableEq

/-- One row of the GISAID submission summary built by
`process_influenza_files` (lines 438-446); the two gene-named columns hold
the segment-4 and segment-6 verdicts. -/
structure GisaidRow where
  limsID : Str
  virusType : Str
  segment4 : Verdict
  segment6 : Verdict
  submitToGisaid : Str
  subtype : Option Str
  isControl : Str
deriving Repr, DecidableEq

/-- Per-segment rows for one observation (lines 407-427): regions sorted by
`sort_segment_key` (Python's stable sort), then one row per region with the
catalog gene name or the synthesized fallback label. -/
def segment_rows_of (d : InfluObs) : List SegmentRow :=
  let sorted_regions := d.regions.mergeSort
    (fun a b => sort_segment_key a.segment ≤ sort_segment_key b.segment)
  sorted_regions.map (fun region =>
    let segment_num := sort_segment_key region.segment
    let gene_name := (influenza_segments d.virusType segment_num).getD
      ("Segment ".toList ++ natStr segment_num)
    { limsID := d.limsID
      virusType := d.virusType
      segmentLabel := "Segment ".toList ++ natStr segment_num ++
        " (".toList ++ gene_name ++ ")".toList
      depthOfCoverage := region.depthOfCoverage
      coveragePercentage := region.coveragePercentage
      referenceSequenceId := region.referenceSequenceId })

/-- GISAID summary row for one observation (lines 429-446): segment 4 and
segment 6 are evaluated on the observation's regions, the submit decision is
the `"Pass" in segment4 and "Pass" in segment6` test, and the control flag
re-runs the four marker tests on the (already normalized) LIMS id. -/
def gisaid_row (min_depth min_cov : ℚ) (d : InfluObs) : GisaidRow :=
  let segment4 := evaluate_segment d.regions 4 d.virusType min_depth min_cov
  let segment6 := evaluate_segment d.regions 6 d.virusType min_depth min_cov
  { limsID := d.limsID
    virusType := d.virusType
    segment4 := segment4
    segment6 := segment6
    submitToGisaid := if verdict_has_pass segment4 && verdict_has_pass segment6
                      then "Yes".toList else "No".toList
    subtype := d.subTypeConclusion
    isControl := if isControlId d.limsID then "Yes".toList else "No".toList }

/-- Embedding of `process_influenza_files` (lines 376-448): each file is
parsed; a `None` parse is skipped (`if not influenza_data_list: continue`)
and every observation of a parsed file contributes its segment rows and its
GISAID summary row, in file order. -/
def process_influenza_files (virus_type : Str) (min_depth min_cov : ℚ)
    (files : List FileInput) : List SegmentRow × List GisaidRow :=
  (files.flatMap (fun f =>
     ((parse_json_file_influenza virus_type min_depth min_cov f).getD []).flatMap
       segment_rows_of),
   files.flatMap (fun f =>
     ((parse_json_file_influenza virus_type min_depth min_cov f).getD []).map
       (gisaid_row min_depth min_cov)))

/-! ## Specification-side predicates and bridge lemmas -/

/-- Claim-side reading of the four control markers as substrings. -/
def ControlMarkerP (s : Str) : Prop :=
  "PC".toList <:+: s ∨ "NC".toList <:+: s ∨ "Neg".toList <:+: s ∨ "Pos".toList <:+: s

/-- Claim-side reading of the repeat-run markers as substrings. -/
def RepMarkerP (s : Str) : Prop :=
  "-R".toList <:+: s ∨ "-r".toList <:+: s

/-- Claim-side reading of the evaluate_segment label match: the lower-cased
label starts with the prefix "segment n". -/
def labelMatchesSeg (n : Nat) (r : RawRegion) : Prop :=
  ("segment ".toList ++ natStr n) <+: lowerStr r.segment

instance (s : Str) : Decidable (ControlMarkerP s) := by
  unfold ControlMarkerP; infer_instance

instance (s : Str) : Decidable (RepMarkerP s) := by
  unfold RepMarkerP; infer_instance

instance (n : Nat) (r : RawRegion) : Decidable (labelMatchesSeg n r) := by
  unfold labelMatchesSeg; infer_instance

theorem underscore_list : "_".toList = ['_'] := rfl

/-- Bridge: the boolean isPrefixOf test is the IsPrefix relation. -/
theorem isPrefixOf_eq_iff (l1 l2 : Str) : l1.isPrefixOf l2 = true ↔ l1 <+: l2 :=
  List.isPrefixOf_iff_prefix

/-- The executable substring test is the infix relation. -/
theorem containsSub_iff (pat s : Str) : containsSub pat s = true ↔ pat <:+: s := by
  induction s with
  | nil =>
    simp [containsSub, List.isEmpty_iff, List.infix_nil]
  | cons a rest ih =>
    simp [containsSub, isPrefixOf_eq_iff, ih, List.infix_cons_iff,
      Bool.or_eq_true]

/-- A singleton list is an infix exactly when its element occurs. -/
theorem singleton_infix_iff (a : Char) (s : Str) : [a] <:+: s ↔ a ∈ s := by
  constructor
  · rintro ⟨t, u, rfl⟩
    simp
  · intro h
    obtain ⟨t, u, rfl⟩ := List.append_of_mem h
    exact ⟨t, u, by simp⟩

theorem takeUntil_isPre (c : Char) (s : Str) : takeUntil c s <+: s := by
  induction s with
  | nil => simp [takeUntil]
  | cons a rest ih =>
    by_cases h : a = c
    · simp [takeUntil, h]
    · simp [takeUntil, h, List.cons_prefix_cons, ih]

theorem not_mem_takeUntil (c : Char) (s : Str) : c ∉ takeUntil c s := by
  induction s with
  | nil => simp [takeUntil]
  | cons a rest ih =>
    by_cases h : a = c
    · simp [takeUntil, h]
    · simp [takeUntil, h, ih]
      exact fun he => h he.symm

theorem takeUntil_eq_self_iff (c : Char) (s : Str) : takeUntil c s = s ↔ c ∉ s := by
  induction s with
  | nil => simp [takeUntil]
  | cons a rest ih =>
    by_cases h : a = c
    · subst h
      simp [takeUntil]
    · simp [takeUntil, h, ih, Ne.symm h]

theorem takeUntil_eq_takeWhile (c : Char) (s : Str) :
    takeUntil c s = s.takeWhile (fun x => x != c) := by
  induction s with
  | nil => simp [takeUntil]
  | cons a rest ih =>
    by_cases h : a = c
    · simp [takeUntil, List.takeWhile_cons, h]
    · simp [takeUntil, List.takeWhile_cons, h, ih]

theorem controlP_of_isPre {s t : Str} (h : s <+: t) (hc : ControlMarkerP s) :
    ControlMarkerP t := by
  rcases hc with h1 | h1 | h1 | h1
  · exact Or.inl (h1.trans h.isInfix)
  · exact Or.inr (Or.inl (h1.trans h.isInfix))
  · exact Or.inr (Or.inr (Or.inl (h1.trans h.isInfix)))
  · exact Or.inr (Or.inr (Or.inr (h1.trans h.isInfix)))

theorem repP_of_isPre {s t : Str} (h : s <+: t) (hc : RepMarkerP s) :
    RepMarkerP t := by
  rcases hc with h1 | h1
  · exact Or.inl (h1.trans h.isInfix)
  · exact Or.inr (h1.trans h.isInfix)

theorem isControlId_iff (s : Str) : isControlId s = true ↔ ControlMarkerP s := by
  simp [isControlId, ControlMarkerP, containsSub_iff, Bool.or_eq_true, or_assoc]

theorem hasRepMarker_iff (s : Str) : hasRepMarker s = true ↔ RepMarkerP s := by
  simp [hasRepMarker, RepMarkerP, containsSub_iff, Bool.or_eq_true]

/-! ## Claim theorems -/

/-- Claim C5: normalization follows exactly the four-step cascade: an identifier
containing one of the four case-sensitive control markers is returned
unchanged; else one containing a repeat-run marker ("-R" or "-r") is
returned unchanged; else one containing an underscore is cut at the first
underscore; else it is cut at the first hyphen (whole string when no hyphen).
In particular "K001_S1" normalizes to "K001" and "NC_S1" is unchanged. -/
theorem normalize_limsid_cascade (raw : Str) :
    (ControlMarkerP raw → normalize_limsid raw = raw) ∧
    (¬ ControlMarkerP raw → RepMarkerP raw → normalize_limsid raw = raw) ∧
    (¬ ControlMarkerP raw → ¬ RepMarkerP raw → '_' ∈ raw →
      normalize_limsid raw = raw.takeWhile (fun c => c != '_')) ∧
    (¬ ControlMarkerP raw → ¬ RepMarkerP raw → '_' ∉ raw →
      normalize_limsid raw = raw.takeWhile (fun c => c != '-')) ∧
    normalize_limsid "K001_S1".toList = "K001".toList ∧
    normalize_limsid "NC_S1".toList = "NC_S1".toList := by
  refine ⟨?_, ?_, ?_, ?_, by decide, by decide⟩
  · intro h
    simp [normalize_limsid, (isControlId_iff raw).2 h]
  · intro h1 h2
    simp [normalize_limsid, isControlId_iff, hasRepMarker_iff, h1, h2]
  · intro h1 h2 h3
    simp [normalize_limsid, isControlId_iff, hasRepMarker_iff, h1, h2,
      containsSub_iff, underscore_list, singleton_infix_iff, h3,
      takeUntil_eq_takeWhile]
  · intro h1 h2 h3
    simp [normalize_limsid, isControlId_iff, hasRepMarker_iff, h1, h2,
      containsSub_iff, underscore_list, singleton_infix_iff, h3,
      takeUntil_eq_takeWhile]

/-- Claim C5 witness: the third cascade branch applied to the concrete identifier
"K001_S1". -/
theorem normalize_limsid_cascade_witness :
    normalize_limsid "K001_S1".toList =
      ("K001_S1".toList).takeWhile (fun c => c != '_') :=
  (normalize_limsid_cascade ("K001_S1".toList)).2.2.1
    (by decide) (by decide) (by decide)

/-- Claim C4 counterexample: normalization is not idempotent.  "a-b_c" has no
control or repeat marker, so the underscore branch returns "a-b"; a second
application reaches the hyphen branch and returns "a". -/
theorem normalize_limsid_not_idempotent :
    normalize_limsid (normalize_limsid "a-b_c".toList) ≠
      normalize_limsid "a-b_c".toList := by decide

/-- Claim C4 (amended): normalization is idempotent exactly on those raw
identifiers that do NOT simultaneously lack all control and repeat markers,
contain an underscore, and carry a hyphen in the part before the first
underscore.  On every other identifier a second application is the
identity. -/
theorem normalize_limsid_idempotent_iff (raw : Str) :
    normalize_limsid (normalize_limsid raw) = normalize_limsid raw ↔
    ¬ (¬ ControlMarkerP raw ∧ ¬ RepMarkerP raw ∧ '_' ∈ raw ∧
        '-' ∈ takeUntil '_' raw) := by
  by_cases hc : ControlMarkerP raw
  · have h1 : normalize_limsid raw = raw := by
      simp [normalize_limsid, (isControlId_iff raw).2 hc]
    rw [h1]
    simp [h1, hc]
  · by_cases hr : RepMarkerP raw
    · have h1 : normalize_limsid raw = raw := by
        simp [normalize_limsid, isControlId_iff, hasRepMarker_iff, hc, hr]
      rw [h1]
      simp [h1, hr]
    · by_cases hu : '_' ∈ raw
      · have h1 : normalize_limsid raw = takeUntil '_' raw := by
          simp [normalize_limsid, isControlId_iff, hasRepMarker_iff, hc, hr,
            containsSub_iff, underscore_list, singleton_infix_iff, hu]
        have hcr : ¬ ControlMarkerP (takeUntil '_' raw) :=
          fun h => hc (controlP_of_isPre (takeUntil_isPre _ _) h)
        have hrr : ¬ RepMarkerP (takeUntil '_' raw) :=
          fun h => hr (repP_of_isPre (takeUntil_isPre _ _) h)
        have hur : '_' ∉ takeUntil '_' raw := not_mem_takeUntil _ _
        have h2 : normalize_limsid (takeUntil '_' raw) =
            takeUntil '-' (takeUntil '_' raw) := by
          simp [normalize_limsid, isControlId_iff, hasRepMarker_iff, hcr, hrr,
            containsSub_iff, underscore_list, singleton_infix_iff, hur]
        rw [h1, h2]
        constructor
        · intro he hy
          exact ((takeUntil_eq_self_iff '-' _).1 he) hy.2.2.2
        · intro hn
          exact (takeUntil_eq_self_iff '-' _).2
            (fun hm => hn ⟨hc, hr, hu, hm⟩)
      · have h1 : normalize_limsid raw = takeUntil '-' raw := by
          simp [normalize_limsid, isControlId_iff, hasRepMarker_iff, hc, hr,
            containsSub_iff, underscore_list, singleton_infix_iff, hu]
        have hcr : ¬ ControlMarkerP (takeUntil '-' raw) :=
          fun h => hc (controlP_of_isPre (takeUntil_isPre _ _) h)
        have hrr : ¬ RepMarkerP (takeUntil '-' raw) :=
          fun h => hr (repP_of_isPre (takeUntil_isPre _ _) h)
        have hur : '_' ∉ takeUntil '-' raw :=
          fun h => hu ((takeUntil_isPre '-' raw).subset h)
        have hhr : '-' ∉ takeUntil '-' raw := not_mem_takeUntil _ _
        have h2 : normalize_limsid (takeUntil '-' raw) =
            takeUntil '-' (takeUntil '-' raw) := by
          simp [normalize_limsid, isControlId_iff, hasRepMarker_iff, hcr, hrr,
            containsSub_iff, underscore_list, singleton_infix_iff, hur]
        rw [h1, h2, (takeUntil_eq_self_iff '-' _).2 hhr]
        simp [hu]

/-- Helper for the second half of the evaluate_segment characterization: with
no match before it, the first matching region decides the verdict. -/
theorem evaluate_segment_first_match (pre : List RawRegion) (r : RawRegion)
    (post : List RawRegion) (n : Nat) (virus_type : Str) (min_depth min_cov : ℚ)
    (hr : labelMatchesSeg n r) (hpre : ∀ r2 ∈ pre, ¬ labelMatchesSeg n r2) :
    evaluate_segment (pre ++ r :: post) n virus_type min_depth min_cov =
      if min_depth ≤ r.depthOfCoverage ∧ min_cov ≤ r.coveragePercentage
      then .pass else .fail r.depthOfCoverage r.coveragePercentage := by
  induction pre with
  | nil =>
    have hb : (("segment ".toList ++ natStr n)).isPrefixOf (lowerStr r.segment) = true :=
      (isPrefixOf_eq_iff _ _).2 hr
    simp [evaluate_segment, hb]
    exact fun hcon => absurd hr hcon
  | cons a pre ih =>
    have ha : ¬ labelMatchesSeg n a := hpre a (List.mem_cons_self a pre)
    have hb : (("segment ".toList ++ natStr n)).isPrefixOf (lowerStr a.segment) = false := by
      rw [Bool.eq_false_iff]
      exact fun hT => ha ((isPrefixOf_eq_iff _ _).1 hT)
    simp only [List.cons_append, evaluate_segment, hb, Bool.false_eq_true, if_false]
    exact ih (fun r2 h2 => hpre r2 (List.mem_cons_of_mem a h2))

/-- Claim C2: evaluate_segment returns NotFound iff no region label,
case-insensitively, starts with "segment n"; otherwise the FIRST matching
region decides: Pass iff its depth and coverage meet the thresholds, else
Fail carrying that region's observed values. -/
theorem evaluate_segment_characterization (regions : List RawRegion) (n : Nat)
    (virus_type : Str) (min_depth min_cov : ℚ) :
    (evaluate_segment regions n virus_type min_depth min_cov = .notFound ↔
      ∀ r ∈ regions, ¬ labelMatchesSeg n r) ∧
    (∀ pre r post, regions = pre ++ r :: post → labelMatchesSeg n r →
      (∀ r2 ∈ pre, ¬ labelMatchesSeg n r2) →
      evaluate_segment regions n virus_type min_depth min_cov =
        if min_depth ≤ r.depthOfCoverage ∧ min_cov ≤ r.coveragePercentage
        then .pass else .fail r.depthOfCoverage r.coveragePercentage) := by
  constructor
  · induction regions with
    | nil => simp [evaluate_segment]
    | cons a rest ih =>
      by_cases h : labelMatchesSeg n a
      · have hb : (("segment ".toList ++ natStr n)).isPrefixOf (lowerStr a.segment) = true :=
          (isPrefixOf_eq_iff _ _).2 h
        have hne : evaluate_segment (a :: rest) n virus_type min_depth min_cov ≠ .notFound := by
          simp only [evaluate_segment, hb, if_true]
          split <;> simp
        exact iff_of_false hne
          (fun hall => hall a (List.mem_cons_self a rest) h)
      · have hb : (("segment ".toList ++ natStr n)).isPrefixOf (lowerStr a.segment) = false := by
          rw [Bool.eq_false_iff]
          exact fun hT => h ((isPrefixOf_eq_iff _ _).1 hT)
        simp only [evaluate_segment, hb, Bool.false_eq_true, if_false]
        simp [ih, h]
  · intro pre r post heq hr hpre
    subst heq
    exact evaluate_segment_first_match pre r post n virus_type min_depth min_cov hr hpre

/-- Claim C2 witness: on a single matching region with depth 50 and coverage 95
against thresholds 10 and 80, the first-match clause yields Pass. -/
theorem evaluate_segment_characterization_witness :
    evaluate_segment [⟨"Segment 4".toList, 50, 95, "ref".toList⟩] 4
      "A".toList 10 80 = .pass := by
  have h := (evaluate_segment_characterization
      [⟨"Segment 4".toList, 50, 95, "ref".toList⟩] 4 "A".toList 10 80).2
    [] ⟨"Segment 4".toList, 50, 95, "ref".toList⟩ [] rfl (by decide) (by simp)
  rw [h, if_pos (by norm_num)]

/-- Claim C1: for a segmented-virus observation the GISAID submit decision is
"Yes" iff evaluate_segment returns Pass for segment 4 AND Pass for segment 6
on the observation's region list; a Fail or NotFound verdict on either
mandatory segment makes it "No". -/
theorem submit_decision_iff_both_pass (min_depth min_cov : ℚ) (d : InfluObs) :
    ((gisaid_row min_depth min_cov d).submitToGisaid = "Yes".toList ↔
      (evaluate_segment d.regions 4 d.virusType min_depth min_cov = .pass ∧
       evaluate_segment d.regions 6 d.virusType min_depth min_cov = .pass)) ∧
    ((evaluate_segment d.regions 4 d.virusType min_depth min_cov ≠ .pass ∨
      evaluate_segment d.regions 6 d.virusType min_depth min_cov ≠ .pass) →
      (gisaid_row min_depth min_cov d).submitToGisaid = "No".toList) := by
  constructor
  · cases h4 : evaluate_segment d.regions 4 d.virusType min_depth min_cov <;>
    cases h6 : evaluate_segment d.regions 6 d.virusType min_depth min_cov <;>
    simp [gisaid_row, verdict_has_pass, h4, h6]
  · intro h
    cases h4 : evaluate_segment d.regions 4 d.virusType min_depth min_cov <;>
    cases h6 : evaluate_segment d.regions 6 d.virusType min_depth min_cov <;>
    simp [gisaid_row, verdict_has_pass, h4, h6] <;> simp [h4, h6] at h

/-- Claim C1 witness: scenario B shape — segment 4 passes but no region labelled
segment 6 exists, so the verdict for segment 6 is NotFound and the decision
is "No". -/
theorem submit_decision_iff_both_pass_witness :
    (gisaid_row 10 80
      ⟨"K001".toList, some 95, some 50, none, "A".toList,
        [⟨"Segment 4".toList, 50, 95, "ref".toList⟩]⟩).submitToGisaid =
    "No".toList :=
  (submit_decision_iff_both_pass 10 80
      ⟨"K001".toList, some 95, some 50, none, "A".toList,
        [⟨"Segment 4".toList, 50, 95, "ref".toList⟩]⟩).2
    (Or.inr (by decide))

/-- Claim C10: the two segment-number mechanisms disagree on the label
"Segment 40": evaluate_segment called for segment 4 takes its Pass verdict
from that region (the lower-cased label starts with "segment 4"), while
sort_segment_key extracts 40 from the same label. -/
theorem segment_number_mechanisms_disagree :
    evaluate_segment [⟨"Segment 40".toList, 50, 95, "ref".toList⟩] 4
      "A".toList 10 80 = .pass ∧
    sort_segment_key "Segment 40".toList = 40 ∧ (40 : Nat) ≠ 4 := by decide

/-- Claim C9: the subtype stamped on an influenza observation is "A" exactly when
the lower-cased taxonomy contains the substring "alpha", and "B" otherwise,
for every requested subtype; concretely a matching strain with taxonomy
"Alphainfluenzavirus influenzae" is stamped "A". -/
theorem subtype_stamped_from_alpha :
    (∀ (virus_type lims_id : Str) (strain : RawStrain) (d : InfluObs),
      process_influenza_strain virus_type lims_id strain = some d →
      d.virusType =
        (if "alpha".toList <:+: lowerStr (strain.taxonomyName.getD [])
         then "A".toList else "B".toList)) ∧
    (process_influenza_strain "A".toList "K001".toList
        ⟨some "Alphainfluenzavirus influenzae".toList, some 95, some 50,
          some 99, some "H1N1".toList,
          some [⟨"Segment 4".toList, 50, 95, "ref".toList⟩]⟩).map
      InfluObs.virusType = some "A".toList := by
  constructor
  · intro virus_type lims_id strain d h
    unfold process_influenza_strain at h
    by_cases hm : influenza_match virus_type (lowerStr (strain.taxonomyName.getD []))
    · rw [if_pos hm] at h
      obtain rfl := (Option.some_inj).1 h.symm
      by_cases ha : "alpha".toList <:+: lowerStr (strain.taxonomyName.getD [])
      · rw [if_pos ha]
        show (if containsSub "alpha".toList (lowerStr (strain.taxonomyName.getD [])) = true
              then "A".toList else "B".toList) = "A".toList
        rw [if_pos ((containsSub_iff _ _).2 ha)]
      · rw [if_neg ha]
        show (if containsSub "alpha".toList (lowerStr (strain.taxonomyName.getD [])) = true
              then "A".toList else "B".toList) = "B".toList
        rw [if_neg (fun hT => ha ((containsSub_iff _ _).1 hT))]
    · simp [hm] at h
  · decide

/-- Claim C9 witness: the stamping rule applied to the concrete matching strain of
scenario A. -/
theorem subtype_stamped_from_alpha_witness :
    (⟨"K001".toList, some 95, some 50, some "H1N1".toList, "A".toList,
        [⟨"Segment 4".toList, 50, 95, "ref".toList⟩]⟩ : InfluObs).virusType =
      (if "alpha".toList <:+:
          lowerStr ((some "Alphainfluenzavirus influenzae".toList :
            Option Str).getD [])
       then "A".toList else "B".toList) :=
  subtype_stamped_from_alpha.1 "A".toList "K001".toList
    ⟨some "Alphainfluenzavirus influenzae".toList, some 95, some 50,
      some 99, some "H1N1".toList,
      some [⟨"Segment 4".toList, 50, 95, "ref".toList⟩]⟩
    ⟨"K001".toList, some 95, some 50, some "H1N1".toList, "A".toList,
      [⟨"Segment 4".toList, 50, 95, "ref".toList⟩]⟩
    (by decide)

/-- Claim C3 counterexample: a matching HIV strain whose whole-genome fields (depth
100, coverage 100) pass the thresholds (10, 80) while its first region's
fields (0, 0) do not: the emitted decision is "No", so the decision is NOT
computed from the whole-genome fields as the claim states. -/
theorem nonseg_submit_ignores_whole_genome :
    (process_nonseg_strain "hiv".toList "K001".toList 10 80
      ⟨some "Human immunodeficiency virus 1".toList, some 100, some 100,
        some 99, none,
        some [⟨"genome".toList, 0, 0, "ref".toList⟩]⟩).map
      NonSegRow.submitToGisaid = some "No".toList ∧
    ((100 : ℚ) ≥ 10 ∧ (100 : ℚ) ≥ 80) := by decide

/-- Claim C3 (amended): for a non-segmented strain that matches the requested virus
and has at least one region, the submit decision equals
(depth ≥ min_depth AND coverage ≥ min_cov) computed from the FIRST REGION's
depth-of-coverage and coverage-percentage fields, not from the strain's
whole-genome fields (which are stored in the row but do not enter the
decision). -/
theorem nonseg_submit_iff_first_region_passes (virus_key lims_id : Str)
    (min_depth min_cov : ℚ) (strain : RawStrain) (row : NonSegRow)
    (r0 : RawRegion) (rest : List RawRegion)
    (h : process_nonseg_strain virus_key lims_id min_depth min_cov strain = some row)
    (hr : strain.regions.getD [] = r0 :: rest) :
    row.submitToGisaid = "Yes".toList ↔
      (r0.depthOfCoverage ≥ min_depth ∧ r0.coveragePercentage ≥ min_cov) := by
  unfold process_nonseg_strain at h
  rw [hr] at h
  by_cases hm : kw_any (virus_keywords virus_key)
      (lowerStr (strain.taxonomyName.getD []))
  · rw [if_pos hm] at h
    obtain rfl := (Option.some_inj).1 h.symm
    by_cases hp : min_depth ≤ r0.depthOfCoverage ∧ min_cov ≤ r0.coveragePercentage
    · show (if (decide (min_depth ≤ r0.depthOfCoverage) &&
               decide (min_cov ≤ r0.coveragePercentage)) = true
            then "Yes".toList else "No".toList) = "Yes".toList ↔ _
      simp [hp.1, hp.2]
    · show (if (decide (min_depth ≤ r0.depthOfCoverage) &&
               decide (min_cov ≤ r0.coveragePercentage)) = true
            then "Yes".toList else "No".toList) = "Yes".toList ↔ _
      rw [not_and_or] at hp
      rcases hp with hp | hp
      · simp [hp]
      · simp [hp]
  · simp [hm] at h

/-- Claim C3 witness: the amended rule at a concrete failing first region. -/
theorem nonseg_submit_iff_first_region_passes_witness :
    (⟨"K001".toList, "HIV".toList, some 100, some 100, some 99, none,
        "No".toList, "No".toList, "ref".toList⟩ : NonSegRow).submitToGisaid =
      "Yes".toList ↔
      ((0 : ℚ) ≥ 10 ∧ (0 : ℚ) ≥ 80) :=
  nonseg_submit_iff_first_region_passes "hiv".toList "K001".toList 10 80
    ⟨some "Human immunodeficiency virus 1".toList, some 100, some 100,
      some 99, none, some [⟨"genome".toList, 0, 0, "ref".toList⟩]⟩
    ⟨"K001".toList, "HIV".toList, some 100, some 100, some 99, none,
      "No".toList, "No".toList, "ref".toList⟩
    ⟨"genome".toList, 0, 0, "ref".toList⟩ []
    (by decide) (by decide)

/-- Claim C6 counterexample: a non-segmented strain that matches the requested
virus but has an empty region list produces NO observation at all — neither
from the strain loop nor from the whole-file parse — contradicting the claim
that an observation is still emitted with empty region-derived fields. -/
theorem nonseg_empty_regions_no_row :
    process_nonseg_strain "hiv".toList "K001".toList 10 80
      ⟨some "Human immunodeficiency virus 1".toList, some 100, some 100,
        some 99, none, some []⟩ = none ∧
    kw_any (virus_keywords "hiv".toList)
      (lowerStr "Human immunodeficiency virus 1".toList) = true ∧
    parse_json_file_nonseg "hiv".toList 10 80
      (.valid "K001.assignments.json".toList
        ⟨some [⟨some "Human immunodeficiency virus 1".toList, some 100,
          some 100, some 99, none, some []⟩]⟩) = none := by decide

/-- Claim C6 (amended): a matching non-segmented strain with an empty (or absent)
region list emits NO observation: the strain loop appends nothing for it. -/
theorem nonseg_empty_regions_emit_nothing (virus_key lims_id : Str)
    (min_depth min_cov : ℚ) (strain : RawStrain)
    (h : strain.regions.getD [] = []) :
    process_nonseg_strain virus_key lims_id min_depth min_cov strain = none := by
  unfold process_nonseg_strain
  rw [h]
  simp

/-- Claim C6 witness: the amended rule at a concrete matching strain with an empty
region list. -/
theorem nonseg_empty_regions_emit_nothing_witness :
    process_nonseg_strain "hiv".toList "K001".toList 10 80
      ⟨some "Human immunodeficiency virus 1".toList, some 100, some 100,
        some 99, none, some []⟩ = none :=
  nonseg_empty_regions_emit_nothing "hiv".toList "K001".toList 10 80
    ⟨some "Human immunodeficiency virus 1".toList, some 100, some 100,
      some 99, none, some []⟩ (by decide)

/-- Claim C7: a decision row is flagged as a control iff the (normalized) identity
contains one of the four reserved control markers; the flag does not depend
on the thresholds, the submit decision is computed by the threshold rule for
every observation (controls are flagged, never excluded), an observation is
emitted independently of the identity, and the identity carried by every
parsed observation is the normalized one derived from the file name. -/
theorem control_flag_characterization :
    (∀ (min_depth min_cov : ℚ) (d : InfluObs),
      ((gisaid_row min_depth min_cov d).isControl = "Yes".toList ↔
        ControlMarkerP d.limsID)) ∧
    (∀ (min_depth min_cov min_depth2 min_cov2 : ℚ) (d : InfluObs),
      (gisaid_row min_depth min_cov d).isControl =
        (gisaid_row min_depth2 min_cov2 d).isControl) ∧
    (∀ (min_depth min_cov : ℚ) (d : InfluObs),
      (gisaid_row min_depth min_cov d).submitToGisaid =
        (if verdict_has_pass
              (evaluate_segment d.regions 4 d.virusType min_depth min_cov) &&
            verdict_has_pass
              (evaluate_segment d.regions 6 d.virusType min_depth min_cov)
         then "Yes".toList else "No".toList)) ∧
    (∀ (virus_key lims_id : Str) (min_depth min_cov : ℚ)
        (strain : RawStrain) (row : NonSegRow),
      process_nonseg_strain virus_key lims_id min_depth min_cov strain =
        some row →
      (row.isControl = "Yes".toList ↔ ControlMarkerP lims_id)) ∧
    (∀ (virus_type lims_id lims_id2 : Str) (strain : RawStrain),
      (process_influenza_strain virus_type lims_id strain).isSome =
        (process_influenza_strain virus_type lims_id2 strain).isSome) ∧
    (∀ (virus_type : Str) (min_depth min_cov : ℚ) (name : Str)
        (record : RawRecord) (ds : List InfluObs) (d : InfluObs),
      parse_json_file_influenza virus_type min_depth min_cov
        (.valid name record) = some ds →
      d ∈ ds → d.limsID = lims_of_filename name) := by
  refine ⟨?_, ?_, ?_, ?_, ?_, ?_⟩
  · intro min_depth min_cov d
    by_cases hc : ControlMarkerP d.limsID
    · simp [gisaid_row, (isControlId_iff _).2 hc, hc]
    · have hb : isControlId d.limsID = false := by
        rw [Bool.eq_false_iff]
        exact fun hT => hc ((isControlId_iff _).1 hT)
      simp [gisaid_row, hb, hc]
  · intro min_depth min_cov min_depth2 min_cov2 d
    rfl
  · intro min_depth min_cov d
    rfl
  · intro virus_key lims_id min_depth min_cov strain row h
    unfold process_nonseg_strain at h
    by_cases hm : kw_any (virus_keywords virus_key)
        (lowerStr (strain.taxonomyName.getD []))
    · rw [if_pos hm] at h
      rcases hreg : strain.regions.getD [] with _ | ⟨r0, rest⟩ <;> rw [hreg] at h
      · exact absurd h (by simp)
      · obtain rfl := (Option.some_inj).1 h.symm
        by_cases hc : ControlMarkerP lims_id
        · simp [(isControlId_iff _).2 hc, hc]
        · have hb : isControlId lims_id = false := by
            rw [Bool.eq_false_iff]
            exact fun hT => hc ((isControlId_iff _).1 hT)
          simp [hb, hc]
    · simp [hm] at h
  · intro virus_type lims_id lims_id2 strain
    unfold process_influenza_strain
    by_cases hm : influenza_match virus_type (lowerStr (strain.taxonomyName.getD [])) <;>
      simp [hm]
  · intro virus_type min_depth min_cov name record ds d h hd
    rw [show parse_json_file_influenza virus_type min_depth min_cov
          (.valid name record) =
        (if ((record.strains.getD []).filterMap
            (process_influenza_strain virus_type (lims_of_filename name))).isEmpty = true
         then none
         else some ((record.strains.getD []).filterMap
            (process_influenza_strain virus_type (lims_of_filename name))))
      from rfl] at h
    by_cases he : ((record.strains.getD []).filterMap
        (process_influenza_strain virus_type (lims_of_filename name))).isEmpty = true
    · rw [if_pos he] at h
      exact absurd h (by simp)
    · rw [if_neg he] at h
      obtain rfl := (Option.some_inj).1 h
      obtain ⟨strain, hs, hps⟩ := List.mem_filterMap.1 hd
      unfold process_influenza_strain at hps
      by_cases hm : influenza_match virus_type (lowerStr (strain.taxonomyName.getD []))
      · rw [if_pos hm] at hps
        obtain rfl := (Option.some_inj).1 hps.symm
        rfl
      · simp [hm] at hps

/-- Claim C7 witness: the control-flag rule at a concrete control sample "NC1"
whose metrics also pass the thresholds. -/
theorem control_flag_characterization_witness :
    (⟨"NC1".toList, "HIV".toList, some 95, some 50, some 99, none,
        "Yes".toList, "Yes".toList, "ref".toList⟩ : NonSegRow).isControl =
      "Yes".toList ↔ ControlMarkerP "NC1".toList :=
  control_flag_characterization.2.2.2.1 "hiv".toList "NC1".toList 10 80
    ⟨some "Human immunodeficiency virus 1".toList, some 95, some 50,
      some 99, none, some [⟨"genome".toList, 50, 95, "ref".toList⟩]⟩
    ⟨"NC1".toList, "HIV".toList, some 95, some 50, some 99, none,
      "Yes".toList, "Yes".toList, "ref".toList⟩
    (by decide)

/-- Claim C8: a per-file failure (empty file, malformed file, or any in-file
processing failure, all of which make parse_json_file return None) yields
zero observations from that file and leaves the processing of the remaining
files of the batch unchanged. -/
theorem file_failure_isolated (virus_type : Str) (min_depth min_cov : ℚ)
    (files1 files2 : List FileInput) (f : FileInput)
    (h : parse_json_file_influenza virus_type min_depth min_cov f = none) :
    process_influenza_files virus_type min_depth min_cov
        (files1 ++ f :: files2) =
      process_influenza_files virus_type min_depth min_cov (files1 ++ files2) ∧
    (∀ name, parse_json_file_influenza virus_type min_depth min_cov
      (.emptyFile name) = none) ∧
    (∀ name, parse_json_file_influenza virus_type min_depth min_cov
      (.malformed name) = none) ∧
    (∀ virus_key name, parse_json_file_nonseg virus_key min_depth min_cov
      (.emptyFile name) = none) ∧
    (∀ virus_key name, parse_json_file_nonseg virus_key min_depth min_cov
      (.malformed name) = none) := by
  refine ⟨?_, fun name => rfl, fun name => rfl,
    fun virus_key name => rfl, fun virus_key name => rfl⟩
  simp [process_influenza_files, List.flatMap_append, List.flatMap_cons, h]

/-- Claim C8 witness: an empty file in front of a valid file contributes nothing
and does not stop the valid file from being processed. -/
theorem file_failure_isolated_witness :
    process_influenza_files "A".toList 10 80
        [.emptyFile "x.assignments.json".toList,
         .valid "K001.assignments.json".toList
           ⟨some [⟨some "Alphainfluenzavirus influenzae".toList, some 95,
             some 50, some 99, some "H1N1".toList,
             some [⟨"Segment 4".toList, 50, 95, "ref".toList⟩]⟩]⟩] =
      process_influenza_files "A".toList 10 80
        [.valid "K001.assignments.json".toList
           ⟨some [⟨some "Alphainfluenzavirus influenzae".toList, some 95,
             some 50, some 99, some "H1N1".toList,
             some [⟨"Segment 4".toList, 50, 95, "ref".toList⟩]⟩]⟩] :=
  (file_failure_isolated "A".toList 10 80 []
      [.valid "K001.assignments.json".toList
        ⟨some [⟨some "Alphainfluenzavirus influenzae".toList, some 95,
          some 50, some 99, some "H1N1".toList,
          some [⟨"Segment 4".toList, 50, 95, "ref".toList⟩]⟩]⟩]
      (.emptyFile "x.assignments.json".toList) rfl).1
